import Mathlib

/-!
Shallow embedding of `src/dfrobot_ph_sensor.py` (class `DFRobotPHSensor`).

Modelling choices:
* Python `float` values are modelled as exact rationals `ℚ`; the module's
  arithmetic is plain field arithmetic plus `round`, which Python performs
  half-to-even, modelled by `roundHalfEven` below.
* Python exceptions are modelled by the `PyError` sum type; a method that can
  raise returns `Except PyError _`.  Python leaves partially executed mutations
  of `self` in place when a method raises, so every mutating method returns the
  post-raise `SensorState` (and filesystem) alongside the `Except` value.
* The filesystem is modelled by `FS`: the optional JSON record at
  `calibration_json_path` and whether the parent directory of that path exists.
  A JSON record is a pair of optional numeric fields, so a record with a
  missing key can be represented.
-/

namespace DFRobotPH

/-- The Python exceptions this module can raise.
* `keyError f`: `KeyError` from `calibration_data[f]` in `_load_calibration_data`
  when field `f` is absent from the persisted record (the condition the spec
  calls a malformed record).
* `valueErrorVoltage f v`: the `ValueError(f"The mV value {v} for ... is not
  valid.")` raised by `_verify_voltages`, which names the offending field `f`
  and value `v` (the condition the spec calls invalid calibration data).
* `valueErrorAuto v`: the `ValueError(f"Auto calibration does not work for
  {v} mV. ...")` raised by `auto_calibrate`, naming the value `v`.
* `fileNotFoundError`: the `FileNotFoundError` raised by
  `_store_calibration_data` when the directory is missing and `makedirs` is off.
* `zeroDivisionError`: Python's `ZeroDivisionError` from a float division by
  zero. -/
inductive PyError where
  | keyError (field : String)
  | valueErrorVoltage (field : String) (value : ℚ)
  | valueErrorAuto (value : ℚ)
  | fileNotFoundError
  | zeroDivisionError
  deriving Repr, DecidableEq

/-- Source line 7: `DEFAULT_NEUTRAL_VOLTAGE = 1500.0`. -/
def DEFAULT_NEUTRAL_VOLTAGE : ℚ := 1500

/-- Source line 8: `DEFAULT_ACID_VOLTAGE = 2032.44`. -/
def DEFAULT_ACID_VOLTAGE : ℚ := 2032.44

/-- The mutable calibration state held on `self`: `self.neutral_voltage` and
`self.acid_voltage`. -/
structure SensorState where
  neutral_voltage : ℚ
  acid_voltage : ℚ
  deriving Repr, DecidableEq

/-- The persisted JSON record.  Each of the two keys may be present (with a
numeric value) or absent, so malformed records missing a required field are
representable. -/
structure Record where
  neutral_field : Option ℚ
  acid_field : Option ℚ
  deriving Repr, DecidableEq

/-- The slice of the filesystem the module touches: the contents of
`calibration_json_path` (`none` when `os.path.isfile` is false) and whether the
parent directory of that path exists. -/
structure FS where
  record : Option Record
  folder_exists : Bool
  deriving Repr, DecidableEq

/-- Embeds `is_valid_ph7_voltage` (lines 83-85): `return mv and 1322 < mv < 1678`.
Python's `and` yields `mv` itself (falsy) when `mv == 0`, otherwise the chained
comparison; every caller uses the result for its truthiness, modelled here as
`Bool`. -/
def is_valid_ph7_voltage (mv : ℚ) : Bool :=
  if mv = 0 then false else decide (1322 < mv ∧ mv < 1678)

/-- Embeds `is_valid_ph4_voltage` (lines 87-89): `return mv and 1854 < mv < 2210`. -/
def is_valid_ph4_voltage (mv : ℚ) : Bool :=
  if mv = 0 then false else decide (1854 < mv ∧ mv < 2210)

/-- Embeds `_verify_voltages` (lines 38-42): raises `ValueError` naming the field and
value when a voltage fails its range check, neutral checked first. -/
def verify_voltages (s : SensorState) : Except PyError Unit :=
  if ¬ is_valid_ph7_voltage s.neutral_voltage then
    Except.error (PyError.valueErrorVoltage "neutral_voltage" s.neutral_voltage)
  else if ¬ is_valid_ph4_voltage s.acid_voltage then
    Except.error (PyError.valueErrorVoltage "acid_voltage" s.acid_voltage)
  else Except.ok ()

/-- Embeds `_store_calibration_data` (lines 44-61): verify the current voltages, then
write the two-field record, creating the parent directory when `makedirs` is
set and raising `FileNotFoundError` when it is missing and `makedirs` is off.
Returns the resulting filesystem alongside the exception behaviour. -/
def store_calibration_data (makedirs : Bool) (s : SensorState) (fs : FS) :
    Except PyError Unit × FS :=
  match verify_voltages s with
  | Except.error e => (Except.error e, fs)
  | Except.ok _ =>
    if fs.folder_exists then
      (Except.ok (), { fs with record := some ⟨some s.neutral_voltage, some s.acid_voltage⟩ })
    else if makedirs then
      (Except.ok (), ⟨some ⟨some s.neutral_voltage, some s.acid_voltage⟩, true⟩)
    else
      (Except.error PyError.fileNotFoundError, fs)

/-- Embeds `_load_calibration_data` (lines 30-36): reads the record, assigning
`self.neutral_voltage` then `self.acid_voltage` (each lookup raising `KeyError`
if its key is absent, with any earlier assignment already applied), then calls
`_verify_voltages`.  Returns the post-call state alongside the exception
behaviour. -/
def load_calibration_data (s : SensorState) (r : Record) :
    Except PyError Unit × SensorState :=
  match r.neutral_field with
  | none => (Except.error (PyError.keyError "neutral_voltage"), s)
  | some n =>
    let s1 := { s with neutral_voltage := n }
    match r.acid_field with
    | none => (Except.error (PyError.keyError "acid_voltage"), s1)
    | some a =>
      let s2 := { s1 with acid_voltage := a }
      (verify_voltages s2, s2)

/-- Embeds `__init__` together with the dispatch on `os.path.isfile` (lines 10-28): the
state starts at the defaults; when no record file exists the defaults are
stored, otherwise the record is loaded and verified.  Construction fails
(the exception escapes `__init__`) exactly when the store or load raises. -/
def mkSensor (makedirs : Bool) (fs : FS) : Except PyError (SensorState × FS) :=
  let s0 : SensorState := ⟨DEFAULT_NEUTRAL_VOLTAGE, DEFAULT_ACID_VOLTAGE⟩
  match fs.record with
  | none =>
    match store_calibration_data makedirs s0 fs with
    | (Except.error e, _) => Except.error e
    | (Except.ok _, fs1) => Except.ok (s0, fs1)
  | some r =>
    match load_calibration_data s0 r with
    | (Except.error e, _) => Except.error e
    | (Except.ok _, s1) => Except.ok (s1, fs)

/-- Round-half-to-even to an integer, the rounding Python's builtin `round`
performs. -/
def roundHalfEven (q : ℚ) : ℤ :=
  let f := ⌊q⌋
  let r := q - f
  if r < 1/2 then f
  else if 1/2 < r then f + 1
  else if f % 2 = 0 then f else f + 1

/-- Python's `round(q, n)`: round-half-to-even at `n` decimal digits. -/
def pyRound (q : ℚ) (n : ℕ) : ℚ :=
  (roundHalfEven (q * 10 ^ n) : ℚ) / 10 ^ n

/-- Embeds `_calculate_ph` (lines 63-69).  In Python the slope's float division raises
`ZeroDivisionError` when the denominator is zero, modelled by the explicit
test. -/
def calculate_ph (s : SensorState) (mv : ℚ) : Except PyError ℚ :=
  let denom := (s.neutral_voltage - 1500) / 3 - (s.acid_voltage - 1500) / 3
  if denom = 0 then Except.error PyError.zeroDivisionError
  else
    let slope := (7 - 4) / denom
    let intercept := 7 - slope * (s.neutral_voltage - 1500) / 3
    Except.ok (slope * (mv - 1500) / 3 + intercept)

/-- Embeds `read_ph` (lines 71-73): the linear model rounded to `round_to` digits
(`round_to` defaults to 2 in Python; it is passed explicitly here). -/
def read_ph (s : SensorState) (mv : ℚ) (round_to : ℕ) : Except PyError ℚ :=
  match calculate_ph s mv with
  | Except.error e => Except.error e
  | Except.ok v => Except.ok (pyRound v round_to)

/-- Embeds `read_ph_temp_compensation` (lines 75-81): divides `mv` by the compensation
coefficient `1.0 + coefficient * (temperature - 25.0)` (a zero coefficient
raises `ZeroDivisionError` in Python), then proceeds as `read_ph`. -/
def read_ph_temp_compensation (s : SensorState) (mv temperature coefficient : ℚ)
    (round_to : ℕ) : Except PyError ℚ :=
  let compensation_coefficient := 1 + coefficient * (temperature - 25)
  if compensation_coefficient = 0 then Except.error PyError.zeroDivisionError
  else
    let compensation_voltage := mv / compensation_coefficient
    match calculate_ph s compensation_voltage with
    | Except.error e => Except.error e
    | Except.ok v => Except.ok (pyRound v round_to)

/-- Embeds `calibrate_ph7` (lines 102-105): assigns `self.neutral_voltage = mv` FIRST,
then calls `_store_calibration_data` (whose `_verify_voltages` may raise); on a
raise the in-memory assignment is already in place. -/
def calibrate_ph7 (makedirs : Bool) (mv : ℚ) (s : SensorState) (fs : FS) :
    Except PyError Unit × SensorState × FS :=
  let s1 := { s with neutral_voltage := mv }
  match store_calibration_data makedirs s1 fs with
  | (Except.error e, fs1) => (Except.error e, s1, fs1)
  | (Except.ok _, fs1) => (Except.ok (), s1, fs1)

/-- Embeds `calibrate_ph4` (lines 107-110): assigns `self.acid_voltage = mv`, then
stores. -/
def calibrate_ph4 (makedirs : Bool) (mv : ℚ) (s : SensorState) (fs : FS) :
    Except PyError Unit × SensorState × FS :=
  let s1 := { s with acid_voltage := mv }
  match store_calibration_data makedirs s1 fs with
  | (Except.error e, fs1) => (Except.error e, s1, fs1)
  | (Except.ok _, fs1) => (Except.ok (), s1, fs1)

/-- Embeds `auto_calibrate` (lines 91-100): dispatch on the two range checks, raising
`ValueError` naming `mv` when neither matches. -/
def auto_calibrate (makedirs : Bool) (mv : ℚ) (s : SensorState) (fs : FS) :
    Except PyError Unit × SensorState × FS :=
  if is_valid_ph7_voltage mv then calibrate_ph7 makedirs mv s fs
  else if is_valid_ph4_voltage mv then calibrate_ph4 makedirs mv s fs
  else (Except.error (PyError.valueErrorAuto mv), s, fs)

/-- Embeds `reset_to_default` (lines 112-116): assigns both defaults, then stores. -/
def reset_to_default (makedirs : Bool) (_s : SensorState) (fs : FS) :
    Except PyError Unit × SensorState × FS :=
  let s1 : SensorState := ⟨DEFAULT_NEUTRAL_VOLTAGE, DEFAULT_ACID_VOLTAGE⟩
  match store_calibration_data makedirs s1 fs with
  | (Except.error e, fs1) => (Except.error e, s1, fs1)
  | (Except.ok _, fs1) => (Except.ok (), s1, fs1)

/-- Embeds `set_calibration_data` (lines 118-122): assigns both fields, then stores;
on a verification raise both in-memory assignments are already in place. -/
def set_calibration_data (makedirs : Bool) (neutral_voltage acid_voltage : ℚ)
    (_s : SensorState) (fs : FS) : Except PyError Unit × SensorState × FS :=
  let s1 : SensorState := ⟨neutral_voltage, acid_voltage⟩
  match store_calibration_data makedirs s1 fs with
  | (Except.error e, fs1) => (Except.error e, s1, fs1)
  | (Except.ok _, fs1) => (Except.ok (), s1, fs1)

lemma calculate_ph_at_neutral (n a : ℚ) (h : n ≠ a) :
    calculate_ph ⟨n, a⟩ n = Except.ok 7 := by
  have hd : (n - 1500) / 3 - (a - 1500) / 3 ≠ 0 := by
    intro hc
    exact h (by linarith)
  unfold calculate_ph
  simp only [if_neg hd]
  congr 1
  ring

lemma calculate_ph_at_acid (n a : ℚ) (h : n ≠ a) :
    calculate_ph ⟨n, a⟩ a = Except.ok 4 := by
  have hd : (n - 1500) / 3 - (a - 1500) / 3 ≠ 0 := by
    intro hc
    exact h (by linarith)
  unfold calculate_ph
  simp only [if_neg hd]
  congr 1
  have h3 : (n - 1500) / 3 - (a - 1500) / 3 = (n - a) / 3 := by ring
  rw [h3]
  have hna : n - a ≠ 0 := sub_ne_zero.mpr h
  field_simp
  ring

lemma pyRound_seven : pyRound 7 2 = 7 := by
  norm_num [pyRound, roundHalfEven]

lemma pyRound_four : pyRound 4 2 = 4 := by
  norm_num [pyRound, roundHalfEven]

/-- C1: for every calibration state with `1322 < neutral_voltage < 1678`,
`1854 < acid_voltage < 2210` and `neutral_voltage ≠ acid_voltage`,
`read_ph` returns exactly `7.00` at `mv = neutral_voltage` and exactly `4.00`
at `mv = acid_voltage` (with `round_to = 2`). -/
theorem read_ph_at_calibration_points (n a : ℚ)
    (h1 : 1322 < n) (h2 : n < 1678) (h3 : 1854 < a) (h4 : a < 2210) (h5 : n ≠ a) :
    read_ph ⟨n, a⟩ n 2 = Except.ok 7 ∧ read_ph ⟨n, a⟩ a 2 = Except.ok 4 := by
  constructor <;>
    simp [read_ph, calculate_ph_at_neutral n a h5, calculate_ph_at_acid n a h5,
      pyRound_seven, pyRound_four]

/-- Witness for C1 at the concrete calibration `(1500, 2000)`. -/
theorem read_ph_at_calibration_points_witness :
    ((1322 : ℚ) < 1500 ∧ (1500 : ℚ) < 1678 ∧ (1854 : ℚ) < 2000 ∧ (2000 : ℚ) < 2210
      ∧ (1500 : ℚ) ≠ 2000) ∧
    (read_ph ⟨1500, 2000⟩ 1500 2 = Except.ok 7 ∧ read_ph ⟨1500, 2000⟩ 2000 2 = Except.ok 4) :=
  ⟨by norm_num,
   read_ph_at_calibration_points 1500 2000 (by norm_num) (by norm_num) (by norm_num)
     (by norm_num) (by norm_num)⟩

/-- C6: the validity predicates are exactly the strict exclusive range checks
together with the non-zero (truthiness) requirement, with the stated boundary
behaviour. -/
theorem is_valid_voltage_characterisation :
    (∀ mv : ℚ, is_valid_ph7_voltage mv = true ↔ (mv ≠ 0 ∧ 1322 < mv ∧ mv < 1678)) ∧
    (∀ mv : ℚ, is_valid_ph4_voltage mv = true ↔ (mv ≠ 0 ∧ 1854 < mv ∧ mv < 2210)) ∧
    is_valid_ph7_voltage 1322 = false ∧ is_valid_ph7_voltage 1678 = false ∧
    is_valid_ph7_voltage 1323 = true ∧ is_valid_ph7_voltage 1677 = true ∧
    is_valid_ph7_voltage 0 = false ∧ is_valid_ph4_voltage 0 = false := by
  refine ⟨?_, ?_, by decide, by decide, by decide, by decide, by decide, by decide⟩
  · intro mv
    by_cases h : mv = 0 <;> simp [is_valid_ph7_voltage, h]
  · intro mv
    by_cases h : mv = 0 <;> simp [is_valid_ph4_voltage, h]

/-- C7: at the reference temperature `25.0`, temperature compensation is the
identity: `read_ph_temp_compensation` agrees with `read_ph` for every
calibration state, every input voltage, every coefficient and every rounding
width (the compensation factor is exactly `1.0`). -/
theorem read_ph_temp_compensation_at_reference (s : SensorState)
    (mv coefficient : ℚ) (round_to : ℕ) :
    read_ph_temp_compensation s mv 25 coefficient round_to = read_ph s mv round_to := by
  unfold read_ph_temp_compensation read_ph
  norm_num

/-- C10: for every calibration state satisfying the range invariant, the slope
denominator in `_calculate_ph` is strictly negative (the two ranges are
disjoint, so `neutral_voltage = acid_voltage` is impossible), hence `read_ph`
never divides by zero: it returns a value for every input voltage. -/
theorem read_ph_no_division_by_zero (n a mv : ℚ)
    (h1 : 1322 < n) (h2 : n < 1678) (h3 : 1854 < a) (h4 : a < 2210) :
    (n - 1500) / 3 - (a - 1500) / 3 < 0 ∧ n ≠ a ∧
      ∃ q, read_ph ⟨n, a⟩ mv 2 = Except.ok q := by
  have hd : (n - 1500) / 3 - (a - 1500) / 3 < 0 := by linarith
  refine ⟨hd, by intro h; linarith, ?_⟩
  unfold read_ph calculate_ph
  simp only [if_neg (ne_of_lt hd)]
  exact ⟨_, rfl⟩

/-- Witness for C10 at the concrete calibration `(1500, 2032.44)` and input
`1515`. -/
theorem read_ph_no_division_by_zero_witness :
    ((1322 : ℚ) < 1500 ∧ (1500 : ℚ) < 1678 ∧ (1854 : ℚ) < 2032.44 ∧ (2032.44 : ℚ) < 2210) ∧
    ((1500 - 1500 : ℚ) / 3 - (2032.44 - 1500) / 3 < 0 ∧ (1500 : ℚ) ≠ 2032.44 ∧
      ∃ q, read_ph ⟨1500, 2032.44⟩ 1515 2 = Except.ok q) :=
  ⟨by norm_num,
   read_ph_no_division_by_zero 1500 2032.44 1515 (by norm_num) (by norm_num) (by norm_num)
     (by norm_num)⟩


/-- C3 counterexample: with the default calibration, `read_ph(1515)` with
`round_to = 2` returns `6.92`, not approximately `6.87` as the spec's pinned
regression value states. -/
theorem read_ph_default_1515_counterexample :
    read_ph ⟨DEFAULT_NEUTRAL_VOLTAGE, DEFAULT_ACID_VOLTAGE⟩ 1515 2 = Except.ok 6.92 ∧
      (6.92 : ℚ) ≠ 6.87 := by
  constructor
  · norm_num [read_ph, calculate_ph, pyRound, roundHalfEven,
      DEFAULT_NEUTRAL_VOLTAGE, DEFAULT_ACID_VOLTAGE]
  · norm_num

/-- C3 (amended): with the default calibration `(1500.0, 2032.44)`, the linear
model gives `_calculate_ph(1515) = 10228/1479 ≈ 6.9155`, and `read_ph(1515)`
with `round_to = 2` returns exactly `6.92` — the spec's formula value rounded
to two digits. -/
theorem read_ph_default_1515 :
    calculate_ph ⟨DEFAULT_NEUTRAL_VOLTAGE, DEFAULT_ACID_VOLTAGE⟩ 1515
        = Except.ok (10228 / 1479) ∧
      read_ph ⟨DEFAULT_NEUTRAL_VOLTAGE, DEFAULT_ACID_VOLTAGE⟩ 1515 2 = Except.ok 6.92 ∧
      pyRound (10228 / 1479) 2 = 6.92 := by
  refine ⟨?_, ?_, ?_⟩
  · norm_num [calculate_ph, DEFAULT_NEUTRAL_VOLTAGE, DEFAULT_ACID_VOLTAGE]
  · norm_num [read_ph, calculate_ph, pyRound, roundHalfEven,
      DEFAULT_NEUTRAL_VOLTAGE, DEFAULT_ACID_VOLTAGE]
  · norm_num [pyRound, roundHalfEven]

/-- C2: `calibrate_ph7` assigns `self.neutral_voltage` before
`_store_calibration_data` validates, so when the candidate `2000` fails the
pH7 range check the call raises the validation `ValueError` naming the field
and value, leaves the persisted record at its pre-call contents, but leaves
the in-memory `neutral_voltage` at the rejected `2000` instead of the pre-call
`1500`; `set_calibration_data` behaves the same way. -/
theorem calibrate_failure_mutates_memory :
    calibrate_ph7 true 2000 ⟨1500, 2032.44⟩ ⟨some ⟨some 1500, some 2032.44⟩, true⟩
        = (Except.error (PyError.valueErrorVoltage "neutral_voltage" 2000),
           ⟨2000, 2032.44⟩, ⟨some ⟨some 1500, some 2032.44⟩, true⟩) ∧
      set_calibration_data true 2000 2032.44 ⟨1500, 2032.44⟩
          ⟨some ⟨some 1500, some 2032.44⟩, true⟩
        = (Except.error (PyError.valueErrorVoltage "neutral_voltage" 2000),
           ⟨2000, 2032.44⟩, ⟨some ⟨some 1500, some 2032.44⟩, true⟩) ∧
      (2000 : ℚ) ≠ 1500 := by
  refine ⟨?_, ?_, by norm_num⟩ <;>
    norm_num [calibrate_ph7, set_calibration_data, store_calibration_data,
      verify_voltages, is_valid_ph7_voltage, is_valid_ph4_voltage]

/-- C4: constructing the engine from an existing record that is missing a
required field fails with the `KeyError` naming the absent field
(the code's realisation of the spec's `MalformedRecord`: the condition
"record missing required fields" is detected at load and construction fails
there, rather than completing with bogus state or crashing elsewhere); from a
record holding both fields with a voltage out of range, construction fails
with the `ValueError` identifying the field and the offending value (the
spec's `InvalidCalibrationData`). -/
theorem mkSensor_error_handling :
    (∀ n : ℚ, ∀ b : Bool, mkSensor true ⟨some ⟨some n, none⟩, b⟩
        = Except.error (PyError.keyError "acid_voltage")) ∧
      (∀ x : Option ℚ, ∀ b : Bool, mkSensor true ⟨some ⟨none, x⟩, b⟩
        = Except.error (PyError.keyError "neutral_voltage")) ∧
      (∀ n a : ℚ, ∀ b : Bool, is_valid_ph7_voltage n = false →
        mkSensor true ⟨some ⟨some n, some a⟩, b⟩
          = Except.error (PyError.valueErrorVoltage "neutral_voltage" n)) ∧
      (∀ n a : ℚ, ∀ b : Bool, is_valid_ph7_voltage n = true →
        is_valid_ph4_voltage a = false →
        mkSensor true ⟨some ⟨some n, some a⟩, b⟩
          = Except.error (PyError.valueErrorVoltage "acid_voltage" a)) := by
  refine ⟨?_, ?_, ?_, ?_⟩
  · intro n b
    simp [mkSensor, load_calibration_data]
  · intro x b
    simp [mkSensor, load_calibration_data]
  · intro n a b h
    simp [mkSensor, load_calibration_data, verify_voltages, h]
  · intro n a b h7 h4
    simp [mkSensor, load_calibration_data, verify_voltages, h7, h4]

lemma calibrate_ph7_sets_neutral (m : Bool) (mv : ℚ) (s : SensorState) (fs : FS) :
    (calibrate_ph7 m mv s fs).2.1.neutral_voltage = mv := by
  unfold calibrate_ph7
  rcases hst : store_calibration_data m { s with neutral_voltage := mv } fs with ⟨e | u, fs1⟩ <;>
    simp [hst]

lemma calibrate_ph4_sets_acid (m : Bool) (mv : ℚ) (s : SensorState) (fs : FS) :
    (calibrate_ph4 m mv s fs).2.1.acid_voltage = mv := by
  unfold calibrate_ph4
  rcases hst : store_calibration_data m { s with acid_voltage := mv } fs with ⟨e | u, fs1⟩ <;>
    simp [hst]

/-- C5 counterexample: `1500` satisfies `1322 < 1500 < 1678`, so
`auto_calibrate(1500)` does not fail: under the default calibration it
succeeds via the pH7 path, leaving `neutral_voltage = 1500`. -/
theorem auto_calibrate_1500_counterexample :
    is_valid_ph7_voltage 1500 = true ∧
      auto_calibrate true 1500 ⟨DEFAULT_NEUTRAL_VOLTAGE, DEFAULT_ACID_VOLTAGE⟩
          ⟨some ⟨some DEFAULT_NEUTRAL_VOLTAGE, some DEFAULT_ACID_VOLTAGE⟩, true⟩
        = (Except.ok (), ⟨1500, DEFAULT_ACID_VOLTAGE⟩,
           ⟨some ⟨some 1500, some DEFAULT_ACID_VOLTAGE⟩, true⟩) := by
  constructor
  · decide
  · norm_num [auto_calibrate, calibrate_ph7, store_calibration_data, verify_voltages,
      is_valid_ph7_voltage, is_valid_ph4_voltage,
      DEFAULT_NEUTRAL_VOLTAGE, DEFAULT_ACID_VOLTAGE]

/-- C5 (amended): `auto_calibrate` delegates to `calibrate_ph7` on the pH7
range (setting `neutral_voltage` to `mv`), to `calibrate_ph4` on the pH4 range
(setting `acid_voltage` to `mv`), and otherwise fails with the `ValueError`
naming the value; `auto_calibrate(1515)` under the default calibration
succeeds via the pH7 path setting `neutral_voltage` to `1515` (and so does
`auto_calibrate(1500)`, since `1500` lies inside the pH7 range). -/
theorem auto_calibrate_dispatch (m : Bool) (mv : ℚ) (s : SensorState) (fs : FS) :
    (is_valid_ph7_voltage mv = true →
      auto_calibrate m mv s fs = calibrate_ph7 m mv s fs ∧
        (auto_calibrate m mv s fs).2.1.neutral_voltage = mv) ∧
      (is_valid_ph7_voltage mv = false → is_valid_ph4_voltage mv = true →
        auto_calibrate m mv s fs = calibrate_ph4 m mv s fs ∧
          (auto_calibrate m mv s fs).2.1.acid_voltage = mv) ∧
      (is_valid_ph7_voltage mv = false → is_valid_ph4_voltage mv = false →
        auto_calibrate m mv s fs = (Except.error (PyError.valueErrorAuto mv), s, fs)) ∧
      auto_calibrate true 1515 ⟨DEFAULT_NEUTRAL_VOLTAGE, DEFAULT_ACID_VOLTAGE⟩
          ⟨some ⟨some DEFAULT_NEUTRAL_VOLTAGE, some DEFAULT_ACID_VOLTAGE⟩, true⟩
        = (Except.ok (), ⟨1515, DEFAULT_ACID_VOLTAGE⟩,
           ⟨some ⟨some 1515, some DEFAULT_ACID_VOLTAGE⟩, true⟩) := by
  refine ⟨?_, ?_, ?_, ?_⟩
  · intro h7
    constructor
    · simp [auto_calibrate, h7]
    · simp [auto_calibrate, h7, calibrate_ph7_sets_neutral]
  · intro h7 h4
    constructor
    · simp [auto_calibrate, h7, h4]
    · simp [auto_calibrate, h7, h4, calibrate_ph4_sets_acid]
  · intro h7 h4
    simp [auto_calibrate, h7, h4]
  · norm_num [auto_calibrate, calibrate_ph7, store_calibration_data, verify_voltages,
      is_valid_ph7_voltage, is_valid_ph4_voltage,
      DEFAULT_NEUTRAL_VOLTAGE, DEFAULT_ACID_VOLTAGE]

lemma verify_voltages_ok (n a : ℚ) (h7 : is_valid_ph7_voltage n = true)
    (h4 : is_valid_ph4_voltage a = true) :
    verify_voltages ⟨n, a⟩ = Except.ok () := by
  simp [verify_voltages, h7, h4]

/-- C8: for every valid pair `(a, b)`, `set_calibration_data(a, b)` from any
engine state and any filesystem succeeds, leaving state `(a, b)` and the
record `{neutral_voltage: a, acid_voltage: b}` on storage, and constructing a
fresh engine against that storage loads exactly `(a, b)`. -/
theorem set_calibration_data_roundtrip (a b : ℚ) (s : SensorState) (fs : FS)
    (h7 : is_valid_ph7_voltage a = true) (h4 : is_valid_ph4_voltage b = true) :
    set_calibration_data true a b s fs
        = (Except.ok (), ⟨a, b⟩, ⟨some ⟨some a, some b⟩, true⟩) ∧
      mkSensor true ⟨some ⟨some a, some b⟩, true⟩
        = Except.ok (⟨a, b⟩, ⟨some ⟨some a, some b⟩, true⟩) := by
  constructor
  · rcases fs with ⟨rec, fe⟩
    cases fe <;>
      simp [set_calibration_data, store_calibration_data, verify_voltages_ok a b h7 h4]
  · simp [mkSensor, load_calibration_data, verify_voltages_ok a b h7 h4]

/-- Witness for C8 at the concrete pair `(1500, 2000)` from the default state
and an empty storage. -/
theorem set_calibration_data_roundtrip_witness :
    (is_valid_ph7_voltage 1500 = true ∧ is_valid_ph4_voltage 2000 = true) ∧
      (set_calibration_data true 1500 2000 ⟨1500, 2032.44⟩ ⟨none, true⟩
          = (Except.ok (), ⟨1500, 2000⟩, ⟨some ⟨some 1500, some 2000⟩, true⟩) ∧
        mkSensor true ⟨some ⟨some 1500, some 2000⟩, true⟩
          = Except.ok (⟨1500, 2000⟩, ⟨some ⟨some 1500, some 2000⟩, true⟩)) :=
  ⟨⟨by decide, by decide⟩,
   set_calibration_data_roundtrip 1500 2000 ⟨1500, 2032.44⟩ ⟨none, true⟩
     (by decide) (by decide)⟩

lemma verify_voltages_default :
    verify_voltages ⟨DEFAULT_NEUTRAL_VOLTAGE, DEFAULT_ACID_VOLTAGE⟩ = Except.ok () := by
  norm_num [verify_voltages, is_valid_ph7_voltage, is_valid_ph4_voltage,
    DEFAULT_NEUTRAL_VOLTAGE, DEFAULT_ACID_VOLTAGE]

/-- C9: from any state over a filesystem whose directory exists (true of every
reachable engine), `reset_to_default` succeeds, setting both voltages to the
defaults `(1500.0, 2032.44)` in memory and in the persisted record, and it is
idempotent: a second call yields exactly the same (ok, state, storage)
triple. -/
theorem reset_to_default_idempotent (m : Bool) (s : SensorState) (fs : FS)
    (h : fs.folder_exists = true) :
    reset_to_default m s fs
        = (Except.ok (), ⟨DEFAULT_NEUTRAL_VOLTAGE, DEFAULT_ACID_VOLTAGE⟩,
           ⟨some ⟨some DEFAULT_NEUTRAL_VOLTAGE, some DEFAULT_ACID_VOLTAGE⟩, true⟩) ∧
      reset_to_default m ⟨DEFAULT_NEUTRAL_VOLTAGE, DEFAULT_ACID_VOLTAGE⟩
          ⟨some ⟨some DEFAULT_NEUTRAL_VOLTAGE, some DEFAULT_ACID_VOLTAGE⟩, true⟩
        = (Except.ok (), ⟨DEFAULT_NEUTRAL_VOLTAGE, DEFAULT_ACID_VOLTAGE⟩,
           ⟨some ⟨some DEFAULT_NEUTRAL_VOLTAGE, some DEFAULT_ACID_VOLTAGE⟩, true⟩) := by
  constructor
  · rcases fs with ⟨rec, fe⟩
    simp only [FS.folder_exists] at h
    subst h
    simp [reset_to_default, store_calibration_data, verify_voltages_default]
  · simp [reset_to_default, store_calibration_data, verify_voltages_default]

/-- Witness for C9 from the state `(0, 0)` over an empty storage with an
existing directory. -/
theorem reset_to_default_idempotent_witness :
    (FS.folder_exists ⟨none, true⟩ = true) ∧
      (reset_to_default false ⟨0, 0⟩ ⟨none, true⟩
          = (Except.ok (), ⟨DEFAULT_NEUTRAL_VOLTAGE, DEFAULT_ACID_VOLTAGE⟩,
             ⟨some ⟨some DEFAULT_NEUTRAL_VOLTAGE, some DEFAULT_ACID_VOLTAGE⟩, true⟩) ∧
        reset_to_default false ⟨DEFAULT_NEUTRAL_VOLTAGE, DEFAULT_ACID_VOLTAGE⟩
            ⟨some ⟨some DEFAULT_NEUTRAL_VOLTAGE, some DEFAULT_ACID_VOLTAGE⟩, true⟩
          = (Except.ok (), ⟨DEFAULT_NEUTRAL_VOLTAGE, DEFAULT_ACID_VOLTAGE⟩,
             ⟨some ⟨some DEFAULT_NEUTRAL_VOLTAGE, some DEFAULT_ACID_VOLTAGE⟩, true⟩)) :=
  ⟨rfl, reset_to_default_idempotent false ⟨0, 0⟩ ⟨none, true⟩ rfl⟩


/-- Witness for C6 at the concrete voltage `1500`. -/
theorem is_valid_voltage_characterisation_witness :
    is_valid_ph7_voltage 1500 = true :=
  (is_valid_voltage_characterisation.1 1500).mpr (by norm_num)

/-- Witness for C4 at the concrete records `{neutral_voltage: 1500}` (missing
acid field) and `{neutral_voltage: 2000, acid_voltage: 2032.44}` (neutral out
of range). -/
theorem mkSensor_error_handling_witness :
    mkSensor true ⟨some ⟨some 1500, none⟩, true⟩
        = Except.error (PyError.keyError "acid_voltage") ∧
      mkSensor true ⟨some ⟨some 2000, some 2032.44⟩, true⟩
        = Except.error (PyError.valueErrorVoltage "neutral_voltage" 2000) :=
  ⟨mkSensor_error_handling.1 1500 true,
   mkSensor_error_handling.2.2.1 2000 2032.44 true (by decide)⟩

/-- Witness for C5 at the concrete input `1515` from the default state. -/
theorem auto_calibrate_dispatch_witness :
    auto_calibrate true 1515 ⟨DEFAULT_NEUTRAL_VOLTAGE, DEFAULT_ACID_VOLTAGE⟩
        ⟨some ⟨some DEFAULT_NEUTRAL_VOLTAGE, some DEFAULT_ACID_VOLTAGE⟩, true⟩
      = (Except.ok (), ⟨1515, DEFAULT_ACID_VOLTAGE⟩,
         ⟨some ⟨some 1515, some DEFAULT_ACID_VOLTAGE⟩, true⟩) :=
  (auto_calibrate_dispatch true 1515 ⟨DEFAULT_NEUTRAL_VOLTAGE, DEFAULT_ACID_VOLTAGE⟩
      ⟨some ⟨some DEFAULT_NEUTRAL_VOLTAGE, some DEFAULT_ACID_VOLTAGE⟩, true⟩).2.2.2

end DFRobotPH
